import Mathlib

/-!
Verification of the intent-resolution pipeline of a Confluence chat
application.  The development shallowly embeds three cooperating source
modules:

* `web/src/lib/ai.ts` — `ParsedIntent`, the rule-based matcher
  (`parseWithRules`, `generateContent`), the AI client wrapper
  (`parseWithAI`) and the facade (`parseIntent`);
* `web/src/app/api/ai/route.ts` — the server proxy's prompt selection
  (`isDocumentRequest`, system prompts) and its post-parse normalisation
  of the AI JSON payload (title sanitisation, HTML wrapping, the
  create-placeholder rule);
* the chat page's `handleSend` — the context builder that rewrites a user
  message when a document is attached (vague-reference detection, the
  document-processing and pass-through templates) and the create-action
  defaults.

The JavaScript regular expressions used by the source are embedded with a
small backtracking engine (`Rx`, `mrun`) that mirrors JS semantics for the
constructs those patterns use: character classes, sequencing, ordered
alternation, greedy `?`, greedy and lazy `+` over character classes, one
capture group, the `$` anchor and the `\b` word boundary, with
case-insensitive literals and leftmost search.
-/

set_option maxRecDepth 16384

/-- JS `\s` character class (ECMA-262 WhiteSpace plus LineTerminator). -/
def jsSpace (c : Char) : Bool :=
  c = ' ' || c = '\t' || c = '\n' || c = '\r' || c = '\x0b' || c = '\x0c' ||
  c = ' ' || c = ' ' || (' ' ≤ c && c ≤ ' ') ||
  c = ' ' || c = ' ' || c = ' ' || c = ' ' ||
  c = '　' || c = '﻿'

/-- JS `\w` character class: ASCII letters, digits and underscore. -/
def isWordChar (c : Char) : Bool :=
  c.isAlpha || c.isDigit || c = '_'

/-- JS `.` (dot, no `s` flag): any character except a line terminator. -/
def jsDot (c : Char) : Bool :=
  !(c = '\n' || c = '\r' || c = ' ' || c = ' ')

/-- JS `String.prototype.trim`: strip `\s` characters from both ends. -/
def jsTrim (s : String) : String :=
  String.mk (((s.data.dropWhile jsSpace).reverse.dropWhile jsSpace).reverse)

/-- JS `String.prototype.toLowerCase` (ASCII range, as used by the source). -/
def jsLower (s : String) : String :=
  String.mk (s.data.map Char.toLower)

/-- Does `sub` occur contiguously inside `s`? -/
def hasInfixList (sub : List Char) : List Char → Bool
  | [] => sub.isEmpty
  | c :: tail => sub.isPrefixOf (c :: tail) || hasInfixList sub tail

/-- JS `a.includes(b)`: substring containment. -/
def jsIncludes (s sub : String) : Bool :=
  hasInfixList sub.data s.data

/-- Boolean prefix test used to discriminate the generated templates. -/
def strHasPrefix (p s : String) : Bool :=
  p.data.isPrefixOf s.data

/-- Index of the first occurrence of `sep` in `s` (`sep` assumed nonempty). -/
def findSub (sep : List Char) : List Char → Option Nat
  | [] => if sep.isEmpty then some 0 else none
  | c :: tail =>
    if sep.isPrefixOf (c :: tail) then some 0
    else (findSub sep tail).map (· + 1)

/-- Fuelled worker for JS `String.prototype.split` with a nonempty
separator: scan left to right for non-overlapping occurrences. -/
def jsSplitAux (sep : List Char) : Nat → List Char → List (List Char)
  | 0, s => [s]
  | fuel + 1, s =>
    match findSub sep s with
    | none => [s]
    | some i => s.take i :: jsSplitAux sep fuel (s.drop (i + sep.length))

/-- JS `s.split(sep)` for a nonempty literal separator. -/
def jsSplit (sep s : String) : List String :=
  (jsSplitAux sep.data (s.data.length + 1) s.data).map String.mk

/-- JS `list.join("")`. -/
def concatAll (l : List String) : String :=
  l.foldr (· ++ ·) ""

/-!  ## The regular-expression engine  -/

/-- Abstract syntax for the regex features used by the source patterns. -/
inductive Rx where
  | eps
  | cls (p : Char → Bool)
  | seq (a b : Rx)
  | alt (a b : Rx)
  | opt (a : Rx)
  | plusG (p : Char → Bool)
  | plusL (p : Char → Bool)
  | grp (a : Rx)
  | eos
  | wb

/-- Success result of a match attempt: the capture of group 1 (if the
group participated) and the input remaining after the match. -/
abbrev MOut := Option (Option (List Char) × List Char)

/-- Continuation: previous character (for `\b`) and remaining input. -/
abbrev MCont := Option Char → List Char → MOut

/-- Is there a word boundary between `prev` and the head of `s`? -/
def atBoundary (prev : Option Char) (s : List Char) : Bool :=
  let a := match prev with | some c => isWordChar c | none => false
  let b := match s with | c :: _ => isWordChar c | [] => false
  a != b

/-- Greedy `+` over a class: having consumed `c`, extend the run as far as
possible first, giving characters back one at a time on failure. -/
def plusGAux (p : Char → Bool) (c : Char) (rest : List Char) (k : MCont) : MOut :=
  match rest with
  | [] => k (some c) []
  | c' :: rest' =>
    if p c' then (plusGAux p c' rest' k).orElse (fun _ => k (some c) rest)
    else k (some c) rest

/-- Lazy `+?` over a class: having consumed `c`, try the continuation
first and extend the run only on failure. -/
def plusLAux (p : Char → Bool) (c : Char) (rest : List Char) (k : MCont) : MOut :=
  (k (some c) rest).orElse (fun _ =>
    match rest with
    | [] => none
    | c' :: rest' => if p c' then plusLAux p c' rest' k else none)

/-- Backtracking matcher in continuation-passing style, mirroring the JS
engine's ordered exploration: alternation tries the left branch first,
`?` prefers presence, greedy `+` prefers longer runs, lazy `+?` prefers
shorter ones. -/
def mrun : Rx → Option Char → List Char → MCont → MOut
  | .eps, prev, s, k => k prev s
  | .cls p, _, s, k =>
    match s with
    | [] => none
    | c :: rest => if p c then k (some c) rest else none
  | .seq a b, prev, s, k => mrun a prev s (fun prev' s' => mrun b prev' s' k)
  | .alt a b, prev, s, k =>
    (mrun a prev s k).orElse (fun _ => mrun b prev s k)
  | .opt a, prev, s, k =>
    (mrun a prev s k).orElse (fun _ => k prev s)
  | .plusG p, _, s, k =>
    match s with
    | [] => none
    | c :: rest => if p c then plusGAux p c rest k else none
  | .plusL p, _, s, k =>
    match s with
    | [] => none
    | c :: rest => if p c then plusLAux p c rest k else none
  | .grp a, prev, s, k =>
    mrun a prev s (fun prev' s' =>
      (k prev' s').map (fun r => (some (s.take (s.length - s'.length)), r.2)))
  | .eos, prev, s, k =>
    match s with
    | [] => k prev s
    | _ :: _ => none
  | .wb, prev, s, k =>
    if atBoundary prev s then k prev s else none

/-- Run `re` at the current position only; on success report the number of
characters consumed and the capture. -/
def runAt (re : Rx) (prev : Option Char) (s : List Char) :
    Option (Nat × Option (List Char)) :=
  match mrun re prev s (fun _ s' => some (none, s')) with
  | some (cap, rest) => some (s.length - rest.length, cap)
  | none => none

/-- Leftmost unanchored search: returns `(start, length, capture)` of the
first match, trying successive start positions. -/
def searchAux (re : Rx) (prev : Option Char) (s : List Char) :
    Option (Nat × Nat × Option (List Char)) :=
  match runAt re prev s with
  | some (len, cap) => some (0, len, cap)
  | none =>
    match s with
    | [] => none
    | c :: tail => (searchAux re (some c) tail).map (fun r => (r.1 + 1, r.2))

/-- A source pattern: its regex body and whether it is `^`-anchored. -/
structure Pat where
  anchored : Bool := false
  re : Rx

/-- Run a pattern against a string the way JS `match`/`test` do. -/
def patRun (p : Pat) (s : String) : Option (Nat × Nat × Option (List Char)) :=
  if p.anchored then (runAt p.re none s.data).map (fun r => (0, r.1, r.2))
  else searchAux p.re none s.data

/-- JS `pattern.test(s)`. -/
def patTest (p : Pat) (s : String) : Bool :=
  (patRun p s).isSome

/-- JS `s.match(pattern)` restricted to `match[1]`: `none` when the whole
match fails, `some cap` with the capture of group 1 otherwise. -/
def patCap1 (p : Pat) (s : String) : Option (Option String) :=
  (patRun p s).map (fun r => r.2.2.map String.mk)

/-- JS `s.replace(pattern, "")` (non-global: first match only). -/
def patReplaceEmpty (p : Pat) (s : String) : String :=
  match patRun p s with
  | some (i, len, _) => String.mk (s.data.take i ++ s.data.drop (i + len))
  | none => s

/-- Sequence a list of regexes. -/
def seqRx (l : List Rx) : Rx :=
  l.foldr Rx.seq Rx.eps

/-- Case-insensitive literal (every source pattern carries the `i` flag). -/
def litCI (s : String) : Rx :=
  seqRx (s.data.map (fun c => Rx.cls (fun d => d.toLower = c.toLower)))

/-- Three-way ordered alternation `(x|y|z)`. -/
def alt3 (a b c : Rx) : Rx :=
  Rx.alt a (Rx.alt b c)

/-- `\s+` (greedy). -/
def spP : Rx := Rx.plusG jsSpace

/-- The `["']` quote class. -/
def quoteP (c : Char) : Bool := c = '"' || c = '\x27'

/-- The `[^"'\n]` class used by the title/query capture groups. -/
def notQuoteNL (c : Char) : Bool := !(c = '"' || c = '\x27' || c = '\n')

/-!  ## `web/src/lib/ai.ts` — the rule-based patterns (`PATTERNS`)  -/

/-- `PATTERNS.create[0]`:
`create\s+(?:a\s+)?(?:new\s+)?(?:page\s+)?(?:called\s+|titled\s+|named\s+)?["']?([^"'\n]+?)["']?(?:\s+page)?$` (flag `i`). -/
def createPat0 : Pat :=
  ⟨false, seqRx [litCI "create", spP,
    .opt (.seq (litCI "a") spP),
    .opt (.seq (litCI "new") spP),
    .opt (.seq (litCI "page") spP),
    .opt (alt3 (.seq (litCI "called") spP) (.seq (litCI "titled") spP)
      (.seq (litCI "named") spP)),
    .opt (.cls quoteP),
    .grp (.plusL notQuoteNL),
    .opt (.cls quoteP),
    .opt (.seq spP (litCI "page")),
    .eos]⟩

/-- `PATTERNS.create[1]`: `create\s+(?:a\s+)?(?:new\s+)?(.+?)\s+(?:page|notes|doc)` (flag `i`). -/
def createPat1 : Pat :=
  ⟨false, seqRx [litCI "create", spP,
    .opt (.seq (litCI "a") spP),
    .opt (.seq (litCI "new") spP),
    .grp (.plusL jsDot),
    spP,
    alt3 (litCI "page") (litCI "notes") (litCI "doc")]⟩

/-- `PATTERNS.create[2]`: `new\s+page\s+(?:called\s+|titled\s+)?["']?([^"'\n]+?)["']?$` (flag `i`). -/
def createPat2 : Pat :=
  ⟨false, seqRx [litCI "new", spP, litCI "page", spP,
    .opt (.alt (.seq (litCI "called") spP) (.seq (litCI "titled") spP)),
    .opt (.cls quoteP),
    .grp (.plusL notQuoteNL),
    .opt (.cls quoteP),
    .eos]⟩

/-- `PATTERNS.create[3]`: `make\s+(?:a\s+)?(?:page\s+)?(?:called\s+)?["']?([^"'\n]+?)["']?` (flag `i`). -/
def createPat3 : Pat :=
  ⟨false, seqRx [litCI "make", spP,
    .opt (.seq (litCI "a") spP),
    .opt (.seq (litCI "page") spP),
    .opt (.seq (litCI "called") spP),
    .opt (.cls quoteP),
    .grp (.plusL notQuoteNL),
    .opt (.cls quoteP)]⟩

/-- `PATTERNS.search[0]`:
`(?:find|search|look\s+for)\s+(?:pages?\s+)?(?:about\s+|mentioning\s+|with\s+)?["']?([^"'\n]+?)["']?$` (flag `i`). -/
def searchPat0 : Pat :=
  ⟨false, seqRx [alt3 (litCI "find") (litCI "search") (seqRx [litCI "look", spP, litCI "for"]),
    spP,
    .opt (seqRx [litCI "page", .opt (.cls (fun c => c.toLower = 's')), spP]),
    .opt (alt3 (.seq (litCI "about") spP) (.seq (litCI "mentioning") spP)
      (.seq (litCI "with") spP)),
    .opt (.cls quoteP),
    .grp (.plusL notQuoteNL),
    .opt (.cls quoteP),
    .eos]⟩

/-- `PATTERNS.search[1]`: `(?:pages?\s+)?about\s+["']?([^"'\n]+?)["']?$` (flag `i`). -/
def searchPat1 : Pat :=
  ⟨false, seqRx [.opt (seqRx [litCI "page", .opt (.cls (fun c => c.toLower = 's')), spP]),
    litCI "about", spP,
    .opt (.cls quoteP),
    .grp (.plusL notQuoteNL),
    .opt (.cls quoteP),
    .eos]⟩

/-- `PATTERNS.search[2]`: `where\s+(?:is|are)\s+(?:the\s+)?["']?([^"'\n]+?)["']?` (flag `i`). -/
def searchPat2 : Pat :=
  ⟨false, seqRx [litCI "where", spP,
    .alt (litCI "is") (litCI "are"), spP,
    .opt (.seq (litCI "the") spP),
    .opt (.cls quoteP),
    .grp (.plusL notQuoteNL),
    .opt (.cls quoteP)]⟩

/-- `PATTERNS.spaces[0]`: `(?:list|show|get)\s+(?:all\s+)?spaces` (flag `i`). -/
def spacesPat0 : Pat :=
  ⟨false, seqRx [alt3 (litCI "list") (litCI "show") (litCI "get"), spP,
    .opt (.seq (litCI "all") spP), litCI "spaces"]⟩

/-- `PATTERNS.spaces[1]`: `(?:what|which)\s+spaces` (flag `i`). -/
def spacesPat1 : Pat :=
  ⟨false, seqRx [.alt (litCI "what") (litCI "which"), spP, litCI "spaces"]⟩

/-- `PATTERNS.spaces[2]`: `available\s+spaces` (flag `i`). -/
def spacesPat2 : Pat :=
  ⟨false, seqRx [litCI "available", spP, litCI "spaces"]⟩

/-- `PATTERNS.help[0]`: `^help$` (flag `i`). -/
def helpPat0 : Pat := ⟨true, seqRx [litCI "help", .eos]⟩

/-- `PATTERNS.help[1]`: `what\s+can\s+you\s+do` (flag `i`). -/
def helpPat1 : Pat :=
  ⟨false, seqRx [litCI "what", spP, litCI "can", spP, litCI "you", spP, litCI "do"]⟩

/-- `PATTERNS.help[2]`: `how\s+(?:do\s+i|to)\s+use` (flag `i`). -/
def helpPat2 : Pat :=
  ⟨false, seqRx [litCI "how", spP,
    .alt (seqRx [litCI "do", spP, litCI "i"]) (litCI "to"), spP, litCI "use"]⟩

/-- `PATTERNS.create`. -/
def patternsCreate : List Pat := [createPat0, createPat1, createPat2, createPat3]

/-- `PATTERNS.search`. -/
def patternsSearch : List Pat := [searchPat0, searchPat1, searchPat2]

/-- `PATTERNS.spaces`. -/
def patternsSpaces : List Pat := [spacesPat0, spacesPat1, spacesPat2]

/-- `PATTERNS.help`. -/
def patternsHelp : List Pat := [helpPat0, helpPat1, helpPat2]

/-!  ## `web/src/lib/ai.ts` — `ParsedIntent` and `parseWithRules`  -/

/-- The `ParsedIntent` interface.  `type` is kept as a string because the
AI path assigns untyped JSON data to it at runtime; `confidence` is kept
as an exact rational since the source only ever stores and compares the
constants 0.9, 0.8, 0.3 and 0.95. -/
structure ParsedIntent where
  type : String
  title : Option String := none
  content : Option String := none
  query : Option String := none
  space : Option String := none
  answer : Option String := none
  confidence : ℚ
deriving DecidableEq

/-- `generateContent`: deterministic content template keyed by keyword
sniffing of the lower-cased title. -/
def generateContent (title : String) : String :=
  let lower := jsLower title
  if jsIncludes lower "meeting" then
    "<h2>📋 Attendees</h2><ul><li>Add attendees</li></ul><h2>📌 Agenda</h2><ol><li>Topic 1</li></ol><h2>📝 Notes</h2><p>Meeting notes...</p><h2>✅ Action Items</h2><ul><li>[ ] Action 1</li></ul>"
  else if jsIncludes lower "retro" then
    "<h2>✅ What Went Well</h2><ul><li>Item 1</li></ul><h2>🔧 What Could Improve</h2><ul><li>Item 1</li></ul><h2>💡 Action Items</h2><ul><li>[ ] Action 1</li></ul>"
  else if jsIncludes lower "status" || jsIncludes lower "weekly" then
    "<h2>📊 Highlights</h2><ul><li>Highlight 1</li></ul><h2>🚧 In Progress</h2><ul><li>Task 1</li></ul><h2>🚫 Blockers</h2><ul><li>None</li></ul>"
  else
    "<h2>" ++ title ++ "</h2><p>Content goes here...</p>"

/-- The title-rewrite regex `^(a|an|the)\s+` (flag `i`) used with
`title.replace(..., "")`. -/
def articlePat : Pat :=
  ⟨true, seqRx [.grp (alt3 (litCI "a") (litCI "an") (litCI "the")), spP]⟩

/-- `title.replace(/^(a|an|the)\s+/i, "")`. -/
def stripLeadingArticle (t : String) : String :=
  patReplaceEmpty articlePat t

/-- `title.split(" ").map(w => w.charAt(0).toUpperCase() + w.slice(1)).join(" ")`. -/
def capitalizeWords (t : String) : String :=
  String.intercalate " " ((jsSplit " " t).map (fun w =>
    match w.data with
    | [] => ""
    | c :: rest => String.mk (c.toUpper :: rest)))

/-- Does any pattern of the list match (the `for … pattern.test` loops)? -/
def anyPatMatches (ps : List Pat) (s : String) : Bool :=
  ps.any (fun p => patTest p s)

/-- First pattern of the list that matches, with its group-1 capture
(the `for … normalized.match(pattern)` loops). -/
def firstCap (ps : List Pat) (s : String) : Option (Option String) :=
  match ps with
  | [] => none
  | p :: rest =>
    match patCap1 p s with
    | some c => some c
    | none => firstCap rest s

/-- The fixed `answer` string returned for an unmatched message. -/
def unknownAnswer : String :=
  "I\x27m not sure what you mean. Try:\n• \"Create a page called [title]\"\n• \"Find pages about [topic]\"\n• \"List spaces\"\n\nEnable AI in settings for smarter understanding!"

/-- `parseWithRules`: the rule-based fallback classifier.  The current
date string (`new Date().toLocaleDateString()`) is passed explicitly. -/
def parseWithRules (message : String) (dateStr : String) : ParsedIntent :=
  let normalized := jsTrim message
  if anyPatMatches patternsHelp normalized then
    { type := "help", confidence := 9/10 }
  else if anyPatMatches patternsSpaces normalized then
    { type := "spaces", confidence := 9/10 }
  else
    match firstCap patternsCreate normalized with
    | some cap =>
      let t3 := (cap.map jsTrim).map (fun t => capitalizeWords (stripLeadingArticle t))
      let titleArg := match t3 with
        | some t => if t = "" then "New Page" else t
        | none => "New Page"
      { type := "create"
        title := some (match t3 with
          | some t => if t = "" then "New Page - " ++ dateStr else t
          | none => "New Page - " ++ dateStr)
        content := some (generateContent titleArg)
        confidence := 8/10 }
    | none =>
      match firstCap patternsSearch normalized with
      | some cap =>
        { type := "search", query := cap.map jsTrim, confidence := 8/10 }
      | none =>
        { type := "unknown", confidence := 3/10, answer := some unknownAnswer }

/-!  ## `web/src/lib/ai.ts` — `parseWithAI` and `parseIntent`  -/

/-- The loosely-typed JSON body the client receives from `/api/ai`; every
field is optional because the payload is untrusted. -/
structure AIData where
  error : Option String := none
  type : Option String := none
  title : Option String := none
  content : Option String := none
  query : Option String := none
  space : Option String := none
  answer : Option String := none
  confidence : Option ℚ := none
deriving DecidableEq

/-- Outcome of the client\x27s `fetch("/api/ai")` call, as far as
`parseWithAI` can observe it. -/
inductive FetchOutcome where
  | networkFailure
  | httpError (status : Nat) (errorBody : Option String)
  | okData (data : AIData)
deriving DecidableEq

/-- JS `v || dflt` on an optional string field. -/
def jsOrStr (v : Option String) (dflt : String) : String :=
  match v with
  | some s => if s = "" then dflt else s
  | none => dflt

/-- JS truthiness of an optional string field. -/
def jsTruthyStr (v : Option String) : Bool :=
  match v with
  | some s => s != ""
  | none => false

/-- `parseWithAI`: every failure (network error, non-ok HTTP response,
`data.error` present) is caught and delegated to `parseWithRules` on the
identical message; a success is copied field-by-field with
`data.type || "unknown"` and `data.confidence || 0.95`. -/
def parseWithAI (message : String) (outcome : FetchOutcome) (dateStr : String) : ParsedIntent :=
  match outcome with
  | .networkFailure => parseWithRules message dateStr
  | .httpError _ _ => parseWithRules message dateStr
  | .okData d =>
    if jsTruthyStr d.error then parseWithRules message dateStr
    else
      { type := jsOrStr d.type "unknown"
        title := d.title
        content := d.content
        query := d.query
        space := d.space
        answer := d.answer
        confidence := match d.confidence with
          | some q => if q = 0 then 95/100 else q
          | none => 95/100 }

/-- The guard `aiApiKey && aiApiKey.trim()` of `parseIntent`. -/
def aiKeyConfigured (k : Option String) : Bool :=
  match k with
  | some s => s != "" && jsTrim s != ""
  | none => false

/-- `parseIntent`: the resolver facade.  The outcome of the one network
call the AI delegate would make is passed as an oracle so that theorems
can quantify over every possible environment behaviour. -/
def parseIntent (message : String) (aiApiKey : Option String)
    (outcome : FetchOutcome) (dateStr : String) : ParsedIntent :=
  if aiKeyConfigured aiApiKey then parseWithAI message outcome dateStr
  else parseWithRules message dateStr

/-!  ## `web/src/app/api/ai/route.ts` — prompt selection  -/

/-- `isDocumentRequest`: the four document-request markers tested with
`message.includes`. -/
def isDocumentRequest (message : String) : Bool :=
  jsIncludes message "DOCUMENT PROCESSING REQUEST" ||
  jsIncludes message "[User uploaded" ||
  jsIncludes message "Document content:" ||
  jsIncludes message "File content:"

/-- The strict document-conversion system prompt (`documentProcessingPrompt`). -/
def documentProcessingPrompt : String :=
  "You are a document-to-Confluence converter. Convert the uploaded document to a Confluence page.\n\n## CRITICAL RULES - YOU MUST FOLLOW THESE:\n\n1. **INCLUDE EVERYTHING** - Do NOT summarize. Do NOT shorten. Include ALL text from the document.\n2. **PRESERVE ALL DETAILS** - Every paragraph, every bullet point, every piece of information must be in the output.\n3. **NO SUMMARIZATION** - If the document has 50 items, your output must have 50 items. Not 5. Not 10. ALL 50.\n4. **VERBATIM CONTENT** - Copy the actual text content, don\x27t paraphrase or condense it.\n\n## OUTPUT FORMAT - Return ONLY this JSON:\n\n\x7b\n  \"type\": \"create\",\n  \"title\": \"Exact title from document OR descriptive title based on content\",\n  \"content\": \"FULL HTML content with ALL document text\"\n\x7d\n\n## HTML FORMATTING:\n\n- <h2>📋 Section Title</h2> for main sections\n- <h3>Subsection</h3> for subsections  \n- <p>Paragraph text here</p> for paragraphs\n- <ul><li>Item 1</li><li>Item 2</li></ul> for bullet lists\n- <ol><li>Step 1</li><li>Step 2</li></ol> for numbered lists\n- <table><tr><th>Header</th></tr><tr><td>Data</td></tr></table> for tables\n- <strong>bold</strong> and <em>italic</em> for emphasis\n- <code>code</code> for code/technical terms\n\n## WHAT TO INCLUDE:\n\n- ALL headings and sections from the document\n- ALL paragraphs of text\n- ALL list items (every single one)\n- ALL table data (every row and column)\n- ALL names, dates, numbers, and specific details\n- ALL action items, tasks, or to-dos\n\n## WHAT NOT TO DO:\n\n- Do NOT say \"etc.\" or \"and more\" - list everything\n- Do NOT summarize sections - include full text\n- Do NOT skip \"less important\" content\n- Do NOT use placeholder text like \"...\" or \"[more items]\"\n- Do NOT truncate lists\n\n## EXAMPLE:\n\nIf document says:\n\"Attendees: John, Mary, Bob, Alice, Tom\nAgenda: 1. Review Q3 results 2. Discuss budget 3. Plan Q4\"\n\nYour output MUST include:\n\"<h2>👥 Attendees</h2><ul><li>John</li><li>Mary</li><li>Bob</li><li>Alice</li><li>Tom</li></ul><h2>📋 Agenda</h2><ol><li>Review Q3 results</li><li>Discuss budget</li><li>Plan Q4</li></ol>\"\n\nReturn ONLY the JSON object. No markdown, no explanations."

/-- The general command-parsing system prompt (`commandParsingPrompt`). -/
def commandParsingPrompt : String :=
  "You are a Confluence assistant that parses user commands. Analyze what the user wants and return JSON.\n\nINTENTS:\n- \"create\": User wants to create a new page. Extract title from their message.\n- \"search\": User wants to find pages. Extract the search query.\n- \"spaces\": User wants to list available spaces.\n- \"help\": User is asking what you can do.\n- \"chat\": User is asking a general question.\n\nUNDERSTANDING CONTEXT:\n- If user says \"create a page called X\" → type: create, title: X\n- If user says \"find pages about Y\" → type: search, query: Y\n- If user mentions \"this\", \"it\", \"the document\" with no file context → ask for clarification\n\nOUTPUT JSON:\n\x7b\n  \"type\": \"create\" | \"search\" | \"spaces\" | \"help\" | \"chat\",\n  \"title\": \"page title for create\",\n  \"content\": \"HTML content for create\",\n  \"query\": \"search terms for search\",\n  \"answer\": \"response for chat/help\"\n\x7d\n\nFor \"create\" without document:\n- Generate appropriate template content based on the title\n- Meeting notes → include Attendees, Agenda, Notes, Action Items sections\n- Status update → include Highlights, In Progress, Blockers sections\n- Generic → include a basic structure\n\nReturn ONLY valid JSON."

/-- The conversational system prompt used for `mode == "chat"`. -/
def chatModePrompt : String :=
  "You are a helpful Confluence assistant. Answer questions naturally and conversationally."

/-- The prompt-selection conditional of the route handler: the document
check runs first, then the chat-mode check, then the general default. -/
def selectSystemPrompt (mode : String) (message : String) : String :=
  if isDocumentRequest message then documentProcessingPrompt
  else if mode = "chat" then chatModePrompt
  else commandParsingPrompt

/-!  ## `web/src/app/api/ai/route.ts` — post-parse normalisation  -/

/-- The JSON object extracted from the AI completion (`parsed`); all
fields optional because the payload is untrusted. -/
structure RouteParsed where
  type : Option String := none
  title : Option String := none
  content : Option String := none
  query : Option String := none
  space : Option String := none
  answer : Option String := none
deriving DecidableEq

/-- The vague-title test of the route handler (conditions inside the
`if (title && ( … ))`). -/
def vagueTitle (title : String) : Bool :=
  jsIncludes (jsLower title) "for this" ||
  jsLower title = "this" ||
  jsLower title = "document" ||
  jsLower title = "untitled" ||
  title.length < 3

/-- Title sanitisation: `parsed.title || ""`, then replacement by the
generated fallback only when the title is truthy and vague. -/
def routeTitle (parsedTitle : Option String) (dateStr : String) : String :=
  let title := jsOrStr parsedTitle ""
  if title != "" && vagueTitle title then "Imported Document - " ++ dateStr
  else title

/-- `htmlContent.split("\n\n").map(p => "<p>" + p.trim() + "</p>").join("")`. -/
def wrapParagraphs (c : String) : String :=
  concatAll ((jsSplit "\n\n" c).map (fun p => "<p>" ++ jsTrim p ++ "</p>"))

/-- Content normalisation: wrap only a truthy content string that
contains no `<` character. -/
def routeContent0 (parsedContent : Option String) : String :=
  let htmlContent := jsOrStr parsedContent ""
  if htmlContent != "" && !(jsIncludes htmlContent "<") then wrapParagraphs htmlContent
  else htmlContent

/-- The fixed placeholder paragraph. -/
def createPlaceholder : String := "<p>Page created via Confluence GPT.</p>"

/-- Content after the create-placeholder rule
(`parsed.type === "create" && !htmlContent`). -/
def routeContent (parsedType parsedContent : Option String) : String :=
  let c := routeContent0 parsedContent
  if parsedType = some "create" && c = "" then createPlaceholder else c

/-- The JSON body the route returns on a successful parse. -/
structure RouteResponse where
  type : String
  title : String
  content : String
  query : Option String
  space : Option String
  answer : Option String
  confidence : ℚ
deriving DecidableEq

/-- The route\x27s successful-parse response: `type` defaults to
`"create"`, title and content are normalised as above. -/
def routeResponse (parsed : RouteParsed) (dateStr : String) : RouteResponse :=
  { type := jsOrStr parsed.type "create"
    title := routeTitle parsed.title dateStr
    content := routeContent parsed.type parsed.content
    query := parsed.query
    space := parsed.space
    answer := parsed.answer
    confidence := 95/100 }

/-!  ## The chat page\x27s `handleSend` — context builder  -/

/-- The uploaded-document payload consumed by the context builder. -/
structure UploadedFile where
  fileName : String
  content : String
  preview : String
deriving DecidableEq

/-- The vague-reference pattern
`\b(this|it|that|the file|the document|the pdf|the content)\b` (flags `gi`). -/
def vaguePat : Pat :=
  ⟨false, seqRx [.wb,
    .grp (Rx.alt (litCI "this") (Rx.alt (litCI "it") (Rx.alt (litCI "that")
      (Rx.alt (litCI "the file") (Rx.alt (litCI "the document")
      (Rx.alt (litCI "the pdf") (litCI "the content"))))))),
    .wb]⟩

/-- `vaguePatterns.some(p => p.test(resolvedRequest))`. -/
def hasVagueReference (s : String) : Bool := patTest vaguePat s

/-- The default request substituted for an empty user message. -/
def defaultDocRequest : String := "Create a Confluence page from this document"

/-- `userMessage || "Create a Confluence page from this document"`. -/
def resolvedRequest (userMessage : String) : String :=
  if userMessage != "" then userMessage else defaultDocRequest

/-- The extension-stripping regex `\.[^/.]+$` used with `replace(…, "")`. -/
def extPat : Pat :=
  ⟨false, seqRx [.cls (fun c => c = '.'),
    .plusG (fun c => !(c = '/' || c = '.')), .eos]⟩

/-- `fileName.replace(/\.[^\/.]+$/, "")`. -/
def fileBaseName (fileName : String) : String := patReplaceEmpty extPat fileName

/-- The document-processing template emitted when the request contains a
vague reference (or the message was empty). -/
def docTemplate (f : UploadedFile) (resolved : String) : String :=
  "DOCUMENT PROCESSING REQUEST\n\nThe user has uploaded a document and wants you to create a Confluence page from it.\n\n=== UPLOADED DOCUMENT ===\nFile name: " ++ f.fileName ++
  "\nSuggested title: " ++ fileBaseName f.fileName ++
  "\n\nDocument content:\n---\n" ++ f.content ++
  "\n---\n\n=== USER\x27S REQUEST ===\n\"" ++ resolved ++
  "\"\n\n=== YOUR TASK ===\n1. Extract the key information from the document above\n2. Create a well-structured Confluence page with proper HTML formatting\n3. Use a descriptive title based on the document content (or use \"" ++ fileBaseName f.fileName ++
  "\" if content doesn\x27t suggest a better title)\n4. Format the content with headings (h2, h3), paragraphs, lists, and tables as appropriate\n\nRespond with JSON containing: type=\"create\", title, and content (HTML formatted)."

/-- The pass-through template emitted for a specific (non-vague)
instruction accompanying an upload. -/
def passTemplate (f : UploadedFile) (resolved : String) : String :=
  "[User uploaded file: " ++ f.fileName ++ "]\n\nFile content:\n" ++ f.content ++
  "\n\n---\nUser request: " ++ resolved

/-- The template-selection condition of `handleSend`
(`hasVagueReference || !userMessage`, with `hasVagueReference` computed
on the resolved request). -/
def selectsDocTemplate (userMessage : String) : Bool :=
  hasVagueReference (resolvedRequest userMessage) || userMessage = ""

/-- The context-building block of `handleSend`: with no attachment the
message passes through; with an attachment the vague-reference test on
the resolved request picks one of the two templates. -/
def buildContextMessage (userMessage : String) (currentFile : Option UploadedFile) : String :=
  match currentFile with
  | none => userMessage
  | some f =>
    let resolved := resolvedRequest userMessage
    if selectsDocTemplate userMessage then docTemplate f resolved
    else passTemplate f resolved

/-- The create-action title default of `handleSend`
(`intent.title || (currentFile ? fileBaseName : "New Page - " + date)`). -/
def createActionTitle (intent : ParsedIntent) (currentFile : Option UploadedFile)
    (dateStr : String) : String :=
  jsOrStr intent.title
    (match currentFile with
     | some f => fileBaseName f.fileName
     | none => "New Page - " ++ dateStr)

/-- The create-action content default of `handleSend`
(`intent.content || "<p>Page created via Confluence GPT.</p>"`). -/
def createActionContent (intent : ParsedIntent) : String :=
  jsOrStr intent.content createPlaceholder

/-!  ## Helper lemmas  -/

theorem strData_append (a b : String) : (a ++ b).data = a.data ++ b.data := rfl

theorem string_eq_empty_iff (a : String) : a = "" ↔ a.data = [] :=
  ⟨fun h => by rw [h], fun h => by cases a with | mk d => subst h; rfl⟩

theorem append_ne_empty_left (a b : String) (h : a ≠ "") : a ++ b ≠ "" := by
  intro hab
  apply h
  rw [string_eq_empty_iff] at hab ⊢
  rw [strData_append] at hab
  exact (List.append_eq_nil.mp hab).1

theorem hasInfixList_of_infix (sub : List Char) :
    ∀ l : List Char, sub <:+: l → hasInfixList sub l = true := by
  intro l
  induction l with
  | nil =>
    intro h
    rw [List.infix_nil] at h
    subst h
    rfl
  | cons c tail ih =>
    intro h
    rcases List.infix_cons_iff.mp h with hp | hi
    · simp [hasInfixList, List.isPrefixOf_iff_prefix.mpr hp]
    · simp [hasInfixList, ih hi]

theorem jsIncludes_of_infix (s x : String) (h : x.data <:+: s.data) : jsIncludes s x = true :=
  hasInfixList_of_infix x.data s.data h

theorem jsIncludes_append_right (a b : String) : jsIncludes (a ++ b) b = true :=
  jsIncludes_of_infix _ _ (by rw [strData_append]; exact (List.suffix_append _ _).isInfix)

theorem strHasPrefix_of_prefix (p s : String) (h : p.data <+: s.data) :
    strHasPrefix p s = true := by
  simp [strHasPrefix, List.isPrefixOf_iff_prefix.mpr h]

theorem strHasPrefix_append (p a b : String) (h : strHasPrefix p a = true) :
    strHasPrefix p (a ++ b) = true := by
  apply strHasPrefix_of_prefix
  rw [strData_append]
  refine List.IsPrefix.trans ?_ (List.prefix_append _ _)
  exact List.isPrefixOf_iff_prefix.mp (by simpa [strHasPrefix] using h)

theorem jsSplitAux_ne_nil (sep : List Char) (fuel : Nat) (s : List Char) :
    jsSplitAux sep fuel s ≠ [] := by
  cases fuel with
  | zero => simp [jsSplitAux]
  | succ n => cases h : findSub sep s <;> simp [jsSplitAux, h]

theorem jsSplit_ne_nil (sep s : String) : jsSplit sep s ≠ [] := by
  intro h
  exact jsSplitAux_ne_nil sep.data (s.data.length + 1) s.data (by simpa [jsSplit] using h)

theorem concatAll_mem_piece (l : List String) (x : String) (hx : x ∈ l) :
    x.data <:+: (concatAll l).data := by
  induction l with
  | nil => cases hx
  | cons y rest ih =>
    rcases List.mem_cons.mp hx with rfl | hmem
    · rw [show concatAll (x :: rest) = x ++ concatAll rest from rfl, strData_append]
      exact (List.prefix_append _ _).isInfix
    · rw [show concatAll (y :: rest) = y ++ concatAll rest from rfl, strData_append]
      exact (ih hmem).trans (List.suffix_append _ _).isInfix

theorem jsIncludes_concatAll (l : List String) (x : String) (hx : x ∈ l) :
    jsIncludes (concatAll l) x = true :=
  jsIncludes_of_infix _ _ (concatAll_mem_piece l x hx)

theorem wrapParagraphs_ne_empty (c : String) : wrapParagraphs c ≠ "" := by
  unfold wrapParagraphs
  cases h : jsSplit "\n\n" c with
  | nil => exact absurd h (jsSplit_ne_nil _ _)
  | cons p rest =>
    show ("<p>" ++ jsTrim p ++ "</p>") ++ concatAll _ ≠ ""
    apply append_ne_empty_left
    apply append_ne_empty_left
    apply append_ne_empty_left
    decide

theorem parseWithRules_type_mem (message dateStr : String) :
    (parseWithRules message dateStr).type ∈
      (["create", "search", "spaces", "help", "chat", "unknown"] : List String) := by
  unfold parseWithRules
  dsimp only
  split
  · simp
  · split
    · simp
    · split
      · simp
      · split
        · simp
        · simp

/-!  ## Claims  -/

/-- Claim C1 (amended): `parseIntent` in parse mode is total by
construction and always yields a `ParsedIntent`; whenever the apiKey
argument is absent or blank (empty after trimming) the Rule Matcher is
invoked directly — the result never depends on the AI delegate\x27s
outcome — and the returned kind lies in the defined set, as it also does
whenever the AI call fails; a successful AI payload\x27s `type` string,
however, is copied through unvalidated and may lie outside the set. -/
theorem c1_parse_totality_and_blank_key (message : String) (key : Option String)
    (outcome : FetchOutcome) (dateStr : String) :
    (aiKeyConfigured key = false →
      parseIntent message key outcome dateStr = parseWithRules message dateStr) ∧
    (parseWithRules message dateStr).type ∈
      (["create", "search", "spaces", "help", "chat", "unknown"] : List String) ∧
    (∀ status errorBody,
      (parseIntent message key (.httpError status errorBody) dateStr).type ∈
        (["create", "search", "spaces", "help", "chat", "unknown"] : List String)) := by
  refine ⟨fun h => ?_, parseWithRules_type_mem message dateStr, fun status errorBody => ?_⟩
  · simp [parseIntent, h]
  · by_cases h : aiKeyConfigured key = true
    · simpa [parseIntent, h, parseWithAI] using parseWithRules_type_mem message dateStr
    · simpa [parseIntent, h] using parseWithRules_type_mem message dateStr

/-- Claim C1, counterexample to the claim as stated: with a configured
key and a successful AI payload whose `type` is an arbitrary string, the
facade returns that string as the kind, outside the defined set. -/
theorem c1_counterexample :
    (parseIntent "hello" (some "sk-test-key")
        (.okData { type := some "banana" }) "1/2/2025").type = "banana" ∧
    "banana" ∉ (["create", "search", "spaces", "help", "chat", "unknown"] : List String) :=
  ⟨rfl, by decide⟩

/-- Claim C1, witness: a blank (whitespace-only) key routes to the Rule
Matcher for any outcome, and a failing AI call keeps the kind in the set. -/
theorem c1_witness :
    aiKeyConfigured (some "   ") = false ∧
    parseIntent "list spaces" (some "   ") .networkFailure "1/2/2025" =
      parseWithRules "list spaces" "1/2/2025" ∧
    (parseIntent "list spaces" (some "   ") (.httpError 500 none) "1/2/2025").type ∈
      (["create", "search", "spaces", "help", "chat", "unknown"] : List String) :=
  ⟨by decide,
   (c1_parse_totality_and_blank_key "list spaces" (some "   ") .networkFailure "1/2/2025").1
     (by decide),
   (c1_parse_totality_and_blank_key "list spaces" (some "   ") .networkFailure "1/2/2025").2.2
     500 none⟩

/-- Claim C2: every failure of the AI delegate in parse mode — a network
failure, a non-ok HTTP response (for example a 401 authentication
rejection), or an ok response carrying an `error` field — makes
`parseWithAI` return exactly the `ParsedIntent` the Rule Matcher alone
produces for the identical message. -/
theorem c2_fallback_is_pure_delegation (message dateStr : String) (status : Nat)
    (errorBody : Option String) (d : AIData) (herr : jsTruthyStr d.error = true) :
    parseWithAI message (.httpError status errorBody) dateStr = parseWithRules message dateStr ∧
    parseWithAI message .networkFailure dateStr = parseWithRules message dateStr ∧
    parseWithAI message (.okData d) dateStr = parseWithRules message dateStr := by
  refine ⟨rfl, rfl, ?_⟩
  simp [parseWithAI, herr]

/-- Claim C2, witness: a simulated 401 response falls back to the exact
rule-based result. -/
theorem c2_witness :
    jsTruthyStr (AIData.error { error := some "AI request failed" }) = true ∧
    parseWithAI "find pages about api" (.httpError 401 (some "Invalid DeepSeek API key"))
        "1/2/2025" =
      parseWithRules "find pages about api" "1/2/2025" :=
  ⟨by decide,
   (c2_fallback_is_pure_delegation "find pages about api" "1/2/2025" 401
     (some "Invalid DeepSeek API key") { error := some "AI request failed" } (by decide)).1⟩

/-- Claim C3 (amended): for every message that matches both some spaces
pattern and some create pattern, the Rule Matcher never returns kind
`create`, and — provided no help pattern matches (help is checked first) —
it returns kind `spaces`. -/
theorem c3_category_priority (message dateStr : String)
    (hs : anyPatMatches patternsSpaces (jsTrim message) = true)
    (_hc : anyPatMatches patternsCreate (jsTrim message) = true) :
    (parseWithRules message dateStr).type ≠ "create" ∧
    (anyPatMatches patternsHelp (jsTrim message) = false →
      (parseWithRules message dateStr).type = "spaces") := by
  constructor
  · by_cases hh : anyPatMatches patternsHelp (jsTrim message) = true
    · simp [parseWithRules, hh]
    · simp [parseWithRules, hh, hs]
  · intro hh
    simp [parseWithRules, hh, hs]

/-- Claim C3, counterexample to the claim as stated: a message matching a
spaces pattern and a create pattern but also a help pattern yields kind
`help`, not `spaces`. -/
theorem c3_counterexample :
    anyPatMatches patternsSpaces
      (jsTrim "what can you do: list spaces or create a x page") = true ∧
    anyPatMatches patternsCreate
      (jsTrim "what can you do: list spaces or create a x page") = true ∧
    (parseWithRules "what can you do: list spaces or create a x page" "1/2/2025").type
      = "help" ∧
    (parseWithRules "what can you do: list spaces or create a x page" "1/2/2025").type
      ≠ "spaces" :=
  ⟨by decide, by decide, by decide, by decide⟩

/-- Claim C3, witness: with no help-pattern match, a message matching
both a spaces and a create pattern resolves to `spaces`, never `create`. -/
theorem c3_witness :
    anyPatMatches patternsSpaces (jsTrim "list spaces and create a x page") = true ∧
    anyPatMatches patternsCreate (jsTrim "list spaces and create a x page") = true ∧
    anyPatMatches patternsHelp (jsTrim "list spaces and create a x page") = false ∧
    (parseWithRules "list spaces and create a x page" "1/2/2025").type = "spaces" ∧
    (parseWithRules "list spaces and create a x page" "1/2/2025").type ≠ "create" := by
  refine ⟨by decide, by decide, by decide, ?_, ?_⟩
  · exact (c3_category_priority "list spaces and create a x page" "1/2/2025"
      (by decide) (by decide)).2 (by decide)
  · exact (c3_category_priority "list spaces and create a x page" "1/2/2025"
      (by decide) (by decide)).1

/-- Claim C4: with no AI key configured, parsing
"create a page called project roadmap" yields kind `create` and title
"Project Roadmap" — trimmed, leading article stripped, each word
capitalized — for every date string and every (never consulted) AI
outcome. -/
theorem c4_title_normalization (outcome : FetchOutcome) (dateStr : String) :
    (parseIntent "create a page called project roadmap" none outcome dateStr).type
      = "create" ∧
    (parseIntent "create a page called project roadmap" none outcome dateStr).title
      = some "Project Roadmap" :=
  ⟨rfl, rfl⟩

/-- Claim C5 (amended): the content generator keyed on the title yields
the meeting markers whenever the lower-cased title contains "meeting";
the retro sections whenever it contains "retro" but not "meeting"
(the meeting check runs first); and the generic two-element template when
none of "meeting", "retro", "status", "weekly" occurs. -/
theorem c5_content_generator (title : String) :
    (jsIncludes (jsLower title) "meeting" = true →
      jsIncludes (generateContent title) "Attendees" = true ∧
      jsIncludes (generateContent title) "Agenda" = true ∧
      jsIncludes (generateContent title) "Notes" = true ∧
      jsIncludes (generateContent title) "Action Items" = true) ∧
    (jsIncludes (jsLower title) "retro" = true →
      jsIncludes (jsLower title) "meeting" = false →
      jsIncludes (generateContent title) "What Went Well" = true ∧
      jsIncludes (generateContent title) "What Could Improve" = true) ∧
    (jsIncludes (jsLower title) "meeting" = false →
      jsIncludes (jsLower title) "retro" = false →
      jsIncludes (jsLower title) "status" = false →
      jsIncludes (jsLower title) "weekly" = false →
      generateContent title = "<h2>" ++ title ++ "</h2><p>Content goes here...</p>") := by
  refine ⟨fun hm => ?_, fun hr hm => ?_, fun hm hr hs hw => ?_⟩
  · simp only [generateContent, hm, if_true]
    exact ⟨by decide, by decide, by decide, by decide⟩
  · simp only [generateContent, hm, hr, if_true, if_false, Bool.false_eq_true]
    exact ⟨by decide, by decide⟩
  · simp [generateContent, hm, hr, hs, hw]

/-- Claim C5, counterexample to the claim as stated: the reachable create
title "Meeting Retro" contains "retro" but its generated content has no
"What Went Well" section, because the meeting keyword pre-empts it. -/
theorem c5_counterexample :
    (parseWithRules "create a meeting retro page" "1/2/2025").type = "create" ∧
    (parseWithRules "create a meeting retro page" "1/2/2025").title = some "Meeting Retro" ∧
    jsIncludes (jsLower "Meeting Retro") "retro" = true ∧
    (parseWithRules "create a meeting retro page" "1/2/2025").content =
      some (generateContent "Meeting Retro") ∧
    jsIncludes (generateContent "Meeting Retro") "What Went Well" = false :=
  ⟨by decide, by decide, by decide, by decide, by decide⟩

/-- Claim C5, witness: each amended clause evaluated at a concrete title. -/
theorem c5_witness :
    jsIncludes (generateContent "Team Meeting") "Action Items" = true ∧
    jsIncludes (generateContent "Sprint Retro") "What Went Well" = true ∧
    generateContent "Roadmap" = "<h2>" ++ "Roadmap" ++ "</h2><p>Content goes here...</p>" :=
  ⟨((c5_content_generator "Team Meeting").1 (by decide)).2.2.2,
   ((c5_content_generator "Sprint Retro").2.1 (by decide) (by decide)).1,
   (c5_content_generator "Roadmap").2.2 (by decide) (by decide) (by decide) (by decide)⟩

/-- A sample uploaded document used to instantiate witnesses. -/
def sampleFile : UploadedFile :=
  { fileName := "report.pdf"
    content := "Quarterly results for FY25"
    preview := "Quarterly results for FY25" }

/-- Claim C6: with an uploaded document the context builder emits the
document-processing template exactly when the resolved request has a
case-insensitive whole-word vague reference or the user message is
empty; "summarize it" selects the document template, "search for the
budget numbers" the pass-through template, and every pass-through output
carries the literal user instruction verbatim. -/
theorem c6_vague_reference_selection :
    (∀ (userMessage : String) (f : UploadedFile),
      strHasPrefix "DOCUMENT PROCESSING REQUEST" (buildContextMessage userMessage (some f)) =
        selectsDocTemplate userMessage) ∧
    (∀ (userMessage : String) (f : UploadedFile), selectsDocTemplate userMessage = false →
      jsIncludes (buildContextMessage userMessage (some f)) userMessage = true) ∧
    (∀ f : UploadedFile,
      buildContextMessage "summarize it" (some f) = docTemplate f "summarize it" ∧
      hasVagueReference "summarize it" = true) ∧
    (∀ f : UploadedFile,
      buildContextMessage "search for the budget numbers" (some f) =
        passTemplate f "search for the budget numbers" ∧
      jsIncludes (buildContextMessage "search for the budget numbers" (some f))
        "search for the budget numbers" = true) := by
  have hpassFalse : ∀ (f : UploadedFile) (r : String),
      strHasPrefix "DOCUMENT PROCESSING REQUEST" (passTemplate f r) = false :=
    fun f r => rfl
  refine ⟨fun msg f => ?_, fun msg f h => ?_, fun f => ⟨rfl, by decide⟩,
    fun f => ⟨rfl, ?_⟩⟩
  · by_cases h : selectsDocTemplate msg = true
    · rw [h]
      unfold buildContextMessage
      dsimp only
      rw [if_pos h]
      unfold docTemplate
      repeat apply strHasPrefix_append
      decide
    · rw [Bool.not_eq_true] at h
      rw [h]
      unfold buildContextMessage
      dsimp only
      rw [if_neg (by simp [h])]
      exact hpassFalse f _
  · have hne : msg ≠ "" := by
      intro he
      rw [he] at h
      exact absurd h (by decide)
    have hres : resolvedRequest msg = msg := by
      simp [resolvedRequest, hne]
    unfold buildContextMessage
    dsimp only
    rw [if_neg (by simp [h]), hres]
    unfold passTemplate
    exact jsIncludes_append_right _ _
  · rw [show buildContextMessage "search for the budget numbers" (some f) =
        passTemplate f "search for the budget numbers" from rfl]
    unfold passTemplate
    exact jsIncludes_append_right _ _

/-- Claim C6, witness: the two spec-named messages evaluated on a sample
file through the theorem. -/
theorem c6_witness :
    selectsDocTemplate "search for the budget numbers" = false ∧
    jsIncludes (buildContextMessage "search for the budget numbers" (some sampleFile))
      "search for the budget numbers" = true ∧
    strHasPrefix "DOCUMENT PROCESSING REQUEST"
        (buildContextMessage "summarize it" (some sampleFile)) =
      selectsDocTemplate "summarize it" :=
  ⟨by decide,
   c6_vague_reference_selection.2.1 "search for the budget numbers" sampleFile (by decide),
   c6_vague_reference_selection.1 "summarize it" sampleFile⟩

/-- Claim C7 (amended): every non-empty AI-returned title that is vague —
equal to "this"/"document"/"untitled" case-insensitively, containing the
phrase "for this", or shorter than 3 characters — is replaced by the
generated fallback "Imported Document - <date>", and then differs from
the returned value unless that value was already the fallback string; an
empty returned title, however, is passed through unchanged. -/
theorem c7_title_sanitization (t dateStr : String) (ht : t ≠ "")
    (hv : vagueTitle t = true) :
    routeTitle (some t) dateStr = "Imported Document - " ++ dateStr ∧
    (t ≠ "Imported Document - " ++ dateStr → routeTitle (some t) dateStr ≠ t) := by
  have hj : jsOrStr (some t) "" = t := by simp [jsOrStr, ht]
  have h1 : routeTitle (some t) dateStr = "Imported Document - " ++ dateStr := by
    simp [routeTitle, hj, ht, hv]
  exact ⟨h1, fun hne => by rw [h1]; exact fun he => hne he.symm⟩

/-- Claim C7, counterexample to the claim as stated: an empty AI-returned
title is kept as the empty string, not replaced by the fallback. -/
theorem c7_counterexample :
    routeTitle (some "") "1/2/2025" = "" ∧
    ¬ routeTitle (some "") "1/2/2025" = "Imported Document - " ++ "1/2/2025" :=
  ⟨rfl, by decide⟩

/-- Claim C7, witness: the vague title "Untitled" is replaced by the
fallback. -/
theorem c7_witness :
    ("Untitled" : String) ≠ "" ∧ vagueTitle "Untitled" = true ∧
    routeTitle (some "Untitled") "1/2/2025" = "Imported Document - " ++ "1/2/2025" ∧
    routeTitle (some "Untitled") "1/2/2025" ≠ "Untitled" :=
  ⟨by decide, by decide,
   (c7_title_sanitization "Untitled" "1/2/2025" (by decide) (by decide)).1,
   (c7_title_sanitization "Untitled" "1/2/2025" (by decide) (by decide)).2 (by decide)⟩

/-- Claim C8: when the AI-returned content contains no `<` character, the
route\x27s normalised content is the in-order concatenation of the
blank-line-delimited paragraphs each wrapped in a `<p>` tag, and hence
contains a `<p>`-wrapped occurrence of every non-empty paragraph. -/
theorem c8_content_wrapping (parsed : RouteParsed) (dateStr content : String)
    (hc : parsed.content = some content)
    (hlt : jsIncludes content "<" = false) :
    (content ≠ "" →
      (routeResponse parsed dateStr).content =
        concatAll ((jsSplit "\n\n" content).map (fun p => "<p>" ++ jsTrim p ++ "</p>"))) ∧
    (∀ p ∈ jsSplit "\n\n" content, jsTrim p ≠ "" →
      jsIncludes (routeResponse parsed dateStr).content ("<p>" ++ jsTrim p ++ "</p>") = true) := by
  have hwrap : content ≠ "" →
      routeContent parsed.type parsed.content = wrapParagraphs content := by
    intro hne
    rw [hc]
    have h0 : routeContent0 (some content) = wrapParagraphs content := by
      simp [routeContent0, jsOrStr, hne, hlt]
    simp [routeContent, h0, wrapParagraphs_ne_empty content]
  constructor
  · intro hne
    show routeContent parsed.type parsed.content = _
    rw [hwrap hne]
    rfl
  · intro p hp htrim
    by_cases hne : content = ""
    · subst hne
      rw [show jsSplit "\n\n" "" = [""] from rfl] at hp
      rcases List.mem_singleton.mp hp with rfl
      exact absurd rfl htrim
    · show jsIncludes (routeContent parsed.type parsed.content) _ = true
      rw [hwrap hne]
      unfold wrapParagraphs
      exact jsIncludes_concatAll _ _ (List.mem_map_of_mem _ hp)

/-- Claim C8, witness: the two-paragraph content "Hello\n\nWorld" is
wrapped paragraph by paragraph in order. -/
theorem c8_witness :
    jsIncludes "Hello\n\nWorld" "<" = false ∧
    (routeResponse { content := some "Hello\n\nWorld" } "1/2/2025").content =
      concatAll ((jsSplit "\n\n" "Hello\n\nWorld").map (fun p => "<p>" ++ jsTrim p ++ "</p>")) ∧
    jsIncludes (routeResponse { content := some "Hello\n\nWorld" } "1/2/2025").content
      ("<p>" ++ jsTrim "World" ++ "</p>") = true :=
  ⟨by decide,
   (c8_content_wrapping { content := some "Hello\n\nWorld" } "1/2/2025" "Hello\n\nWorld" rfl
     (by decide)).1 (by decide),
   (c8_content_wrapping { content := some "Hello\n\nWorld" } "1/2/2025" "Hello\n\nWorld" rfl
     (by decide)).2 "World" (by decide) (by decide)⟩

/-- Claim C9 (amended): the route selects the strict document-conversion
prompt whenever the message contains a document-request marker — the
document check runs before the mode check — otherwise the conversational
prompt when mode is chat, otherwise the general command-parsing prompt. -/
theorem c9_prompt_selection (mode message : String) :
    (isDocumentRequest message = true →
      selectSystemPrompt mode message = documentProcessingPrompt) ∧
    (isDocumentRequest message = false → mode = "chat" →
      selectSystemPrompt mode message = chatModePrompt) ∧
    (isDocumentRequest message = false → mode ≠ "chat" →
      selectSystemPrompt mode message = commandParsingPrompt) := by
  refine ⟨fun h => ?_, fun h hm => ?_, fun h hm => ?_⟩
  · simp [selectSystemPrompt, h]
  · simp [selectSystemPrompt, h, hm]
  · simp [selectSystemPrompt, h, hm]

/-- Claim C9, counterexample to the claim as stated: in chat mode a
message carrying a document marker gets the document-conversion prompt,
not the conversational prompt. -/
theorem c9_counterexample :
    selectSystemPrompt "chat" "[User uploaded file: a.txt]" = documentProcessingPrompt ∧
    documentProcessingPrompt ≠ chatModePrompt :=
  ⟨rfl, by decide⟩

/-- Claim C9, witness: each amended clause evaluated at concrete inputs. -/
theorem c9_witness :
    isDocumentRequest "hello" = false ∧
    selectSystemPrompt "chat" "hello" = chatModePrompt ∧
    selectSystemPrompt "parse" "hello" = commandParsingPrompt ∧
    selectSystemPrompt "parse" "DOCUMENT PROCESSING REQUEST" = documentProcessingPrompt :=
  ⟨by decide,
   (c9_prompt_selection "chat" "hello").2.1 (by decide) rfl,
   (c9_prompt_selection "parse" "hello").2.2 (by decide) (by decide),
   (c9_prompt_selection "parse" "DOCUMENT PROCESSING REQUEST").1 (by decide)⟩

/-- Claim C10: a parsed AI object of type create whose content is still
empty after HTML wrapping receives the fixed placeholder paragraph; a
parsed object with no type field defaults to type create; and the create
action taken by the caller always uses non-empty content. -/
theorem c10_create_content_invariant :
    (∀ (parsed : RouteParsed) (dateStr : String),
      parsed.type = some "create" → routeContent0 parsed.content = "" →
      (routeResponse parsed dateStr).content = createPlaceholder) ∧
    (∀ (parsed : RouteParsed) (dateStr : String),
      parsed.type = none → (routeResponse parsed dateStr).type = "create") ∧
    (∀ intent : ParsedIntent, createActionContent intent ≠ "") := by
  refine ⟨fun parsed dateStr ht hcz => ?_, fun parsed dateStr ht => ?_, fun intent => ?_⟩
  · simp [routeResponse, routeContent, ht, hcz]
  · simp [routeResponse, jsOrStr, ht]
  · have hform : createActionContent intent = jsOrStr intent.content createPlaceholder := rfl
    rw [hform]
    cases intent.content with
    | none => decide
    | some c =>
      show (if c = "" then createPlaceholder else c) ≠ ""
      by_cases hcase : c = ""
      · rw [if_pos hcase]
        decide
      · rw [if_neg hcase]
        exact hcase

/-- Claim C10, witness: a create object with no content gets the
placeholder; a typeless object defaults to create; the caller\x27s create
content is never empty. -/
theorem c10_witness :
    routeContent0 (RouteParsed.content { type := some "create" }) = "" ∧
    (routeResponse { type := some "create" } "1/2/2025").content = createPlaceholder ∧
    (routeResponse {} "1/2/2025").type = "create" ∧
    createActionContent { type := "create", confidence := 95/100 } ≠ "" :=
  ⟨by decide,
   c10_create_content_invariant.1 { type := some "create" } "1/2/2025" rfl (by decide),
   c10_create_content_invariant.2.1 {} "1/2/2025" rfl,
   c10_create_content_invariant.2.2 { type := "create", confidence := 95/100 }⟩
